import Mathlib

/-!
Shallow embedding of `src/app.py` (Streamlit teaching-assignment wish form).

The embedding covers the parts of the program the claims are about:

* the submission store (`load_soumissions` / `save_soumissions`, lines 26-38),
  including the pandas CSV round-trip semantics the store inherits from
  `pd.read_csv` / `DataFrame.to_csv` / `.fillna("")`;
* the validation block of `page_enseignant` (lines 294-320), its error
  messages, and the submit button handler;
* the per-submission sort before saving (lines 324-326) and the admin display
  sort (line 381);
* the session-state cleanup of selections/priorities (lines 141-151, 254-263).

Modelling conventions: a CSV file on disk is a list of rows of raw cell
strings under a fixed 9-column schema (the header row is implicit in the
`Row` structure).  pandas `read_csv` is modelled as follows.  A cell equal
to one of the default NA tokens (`naTokens`: the empty cell, "NA", "N/A",
"NaN", "null", "None", "n/a", ...) is read as NaN in every dtype, as the
real tokenizer does before dtype inference.  A column whose cells all parse
as (optionally signed) decimal integers is read as an integer column; a
column mixing NA cells with integer cells is read as a nullable float
column (integers become floats, NA cells become NaN); any other column is
read as an object column whose non-NA cells are kept verbatim.
`fillna("")` turns NaN back into the empty string on load; `to_csv` renders
NaN as an empty cell, integers in decimal, and floats with a trailing `.0`.
Columns made entirely of float-literal ("8.5") or boolean-literal ("True")
cells, which the real parser would coerce to float/bool dtype, are not
given a dtype by the model (their cells stay verbatim); every round-trip
theorem about the store therefore carries a `plainTable` hypothesis that
confines it to cells the real parser keeps verbatim — not an NA token, not
numeric-looking, not a boolean literal and not an inf/nan spelling — plus
the empty cell, which round-trips to `""` through NaN and `fillna`.
-/

/-! ## The stored CSV: raw rows and pandas-style parsing -/

/-- One raw row of `data/soumissions.csv`, under the fixed schema written by
`page_enseignant` (line 329-339): each cell is the raw CSV text. -/
structure Row where
  nom : String
  prenom : String
  email : String
  niveau : String
  parcours : String
  matiere : String
  priorite : String
  remarques : String
  date_soumission : String
deriving DecidableEq

/-- A cell value as it sits in a pandas `DataFrame` after `read_csv` and
`fillna("")`: a string, an integer, or a float.  `vFloat n` stands for the
float `n.0` produced when an integer cell is read inside a nullable column;
no other floats arise from the tables this application writes. -/
inductive Value where
  | vStr (s : String)
  | vInt (n : Int)
  | vFloat (n : Int)
deriving DecidableEq

/-- One row of the in-memory `DataFrame` returned by `load_soumissions`. -/
structure LoadedRow where
  nom : Value
  prenom : Value
  email : Value
  niveau : Value
  parcours : Value
  matiere : Value
  priorite : Value
  remarques : Value
  date_soumission : Value
deriving DecidableEq

/-- A parsed cell before `fillna`: NaN, an integer, a float, or a string. -/
inductive PVal where
  | pNaN
  | pInt (n : Int)
  | pFloat (n : Int)
  | pStr (s : String)
deriving DecidableEq

/-- The dtype pandas infers for one column of `soumissions.csv` (restricted
to the shapes occurring here): all-integer, nullable integer-as-float, or
object (strings). -/
inductive Mode where
  | mInt
  | mFloat
  | mObj
deriving DecidableEq

/-- Value of a list of decimal digit characters. -/
def natOfDigits (cs : List Char) : Nat :=
  cs.foldl (fun n c => n * 10 + (c.toNat - 48)) 0

/-- pandas-style integer parse of one CSV cell: an optional sign followed by
at least one decimal digit; anything else is not an integer cell. -/
def parseIntOpt (s : String) : Option Int :=
  match s.data with
  | [] => none
  | ch :: rest =>
      if ch = '-' then
        if rest ≠ [] ∧ rest.all Char.isDigit then some (-(natOfDigits rest : Int)) else none
      else if ch = '+' then
        if rest ≠ [] ∧ rest.all Char.isDigit then some (natOfDigits rest : Int) else none
      else if (ch :: rest).all Char.isDigit then some (natOfDigits (ch :: rest) : Int)
      else none

/-- The default NA tokens of `pd.read_csv` (`keep_default_na=True`): a cell
equal to one of these is read as NaN in every dtype, before any inference. -/
def naTokens : List String :=
  ["", "#N/A", "#N/A N/A", "#NA", "-1.#IND", "-1.#QNAN", "-NaN", "-nan",
   "1.#IND", "1.#QNAN", "<NA>", "N/A", "NA", "NULL", "NaN", "None", "n/a",
   "nan", "null"]

/-- Characters from which the pandas C parser can assemble a number: digits,
sign, decimal point, exponent letter, surrounding blanks. -/
def numericChar (ch : Char) : Prop :=
  ch.isDigit ∨ ch = '+' ∨ ch = '-' ∨ ch = '.' ∨ ch = 'e' ∨ ch = 'E' ∨
    ch = ' ' ∨ ch = '\t'

instance (ch : Char) : Decidable (numericChar ch) := by
  unfold numericChar; infer_instance

/-- Numeric-looking: a non-empty cell made only of `numericChar`s.  This
over-approximates the cells `read_csv` may convert into an integer or float
column (every integer and float literal, with or without padding, is made of
these characters). -/
def numericish (c : String) : Prop :=
  c ≠ "" ∧ ∀ ch ∈ c.data, numericChar ch

instance (c : String) : Decidable (numericish c) := by
  unfold numericish; infer_instance

/-- Boolean-looking: a case-insensitive spelling of True or False, which
`read_csv` converts in an all-boolean column. -/
def boolish (c : String) : Prop :=
  c.data.map Char.toLower = "true".data ∨ c.data.map Char.toLower = "false".data

instance (c : String) : Decidable (boolish c) := by
  unfold boolish; infer_instance

/-- An infinity/NaN spelling the float converter accepts (optional sign). -/
def infish (c : String) : Prop :=
  (match c.data with
    | '+' :: r => r
    | '-' :: r => r
    | r => r).map Char.toLower ∈ ["inf".data, "infinity".data, "nan".data]

instance (c : String) : Decidable (infish c) := by
  unfold infish; infer_instance

/-- dtype inference for one column (see module docstring). -/
def colMode (cells : List String) : Mode :=
  if cells ≠ [] ∧ cells.all (fun c => (parseIntOpt c).isSome) then .mInt
  else if cells.any (fun c => (parseIntOpt c).isSome) ∧
          cells.all (fun c => naTokens.contains c || (parseIntOpt c).isSome) then .mFloat
  else .mObj

/-- Parse one cell under the column's inferred dtype. -/
def parseP (m : Mode) (c : String) : PVal :=
  match m with
  | .mInt => .pInt ((parseIntOpt c).getD 0)
  | .mFloat => if naTokens.contains c then .pNaN else .pFloat ((parseIntOpt c).getD 0)
  | .mObj => if naTokens.contains c then .pNaN else .pStr c

/-- `to_csv` rendering of one parsed cell (NaN as empty, floats with `.0`). -/
def renderP (v : PVal) : String :=
  match v with
  | .pNaN => ""
  | .pInt n => toString n
  | .pFloat n => toString n ++ ".0"
  | .pStr s => s

/-- `fillna("")` applied to one parsed cell. -/
def fillnaP (v : PVal) : Value :=
  match v with
  | .pNaN => .vStr ""
  | .pInt n => .vInt n
  | .pFloat n => .vFloat n
  | .pStr s => .vStr s

/-- Read one cell as `load_soumissions` does: parse, then `fillna("")`. -/
def loadCell (m : Mode) (c : String) : Value :=
  fillnaP (parseP m c)

/-- Re-render one cell as `save_soumissions` does to the pre-existing file
content: `read_csv` (no fillna) followed by `to_csv`. -/
def reserCell (m : Mode) (c : String) : String :=
  renderP (parseP m c)

/-- `pd.read_csv(...).fillna("")` on a whole stored table: each column's
dtype is inferred from that column's cells, then every cell is parsed and
NaN-filled. -/
def load_table (t : List Row) : List LoadedRow :=
  let mNom := colMode (t.map (·.nom))
  let mPrenom := colMode (t.map (·.prenom))
  let mEmail := colMode (t.map (·.email))
  let mNiveau := colMode (t.map (·.niveau))
  let mParcours := colMode (t.map (·.parcours))
  let mMatiere := colMode (t.map (·.matiere))
  let mPriorite := colMode (t.map (·.priorite))
  let mRemarques := colMode (t.map (·.remarques))
  let mDate := colMode (t.map (·.date_soumission))
  t.map fun r =>
    { nom := loadCell mNom r.nom
      prenom := loadCell mPrenom r.prenom
      email := loadCell mEmail r.email
      niveau := loadCell mNiveau r.niveau
      parcours := loadCell mParcours r.parcours
      matiere := loadCell mMatiere r.matiere
      priorite := loadCell mPriorite r.priorite
      remarques := loadCell mRemarques r.remarques
      date_soumission := loadCell mDate r.date_soumission }

/-- `pd.read_csv` followed by `to_csv` on the pre-existing file content, as
performed by `save_soumissions` when the file already exists. -/
def reser_table (t : List Row) : List Row :=
  let mNom := colMode (t.map (·.nom))
  let mPrenom := colMode (t.map (·.prenom))
  let mEmail := colMode (t.map (·.email))
  let mNiveau := colMode (t.map (·.niveau))
  let mParcours := colMode (t.map (·.parcours))
  let mMatiere := colMode (t.map (·.matiere))
  let mPriorite := colMode (t.map (·.priorite))
  let mRemarques := colMode (t.map (·.remarques))
  let mDate := colMode (t.map (·.date_soumission))
  t.map fun r =>
    { nom := reserCell mNom r.nom
      prenom := reserCell mPrenom r.prenom
      email := reserCell mEmail r.email
      niveau := reserCell mNiveau r.niveau
      parcours := reserCell mParcours r.parcours
      matiere := reserCell mMatiere r.matiere
      priorite := reserCell mPriorite r.priorite
      remarques := reserCell mRemarques r.remarques
      date_soumission := reserCell mDate r.date_soumission }

/-- State of the backing file `data/soumissions.csv`: absent, present with
some stored rows, or present but unreadable (an I/O failure inside
`pd.read_csv`). -/
inductive FsFile where
  | absent
  | present (rows : List Row)
  | unreadable
deriving DecidableEq

/-- Store-side failure: `pd.read_csv` raising on an existing file. -/
inductive StoreErr where
  | storeUnavailable
deriving DecidableEq

/-- `load_soumissions` (lines 26-30): if the file exists, read and
`fillna("")`; otherwise return an empty frame with the fixed schema.  A file
that exists but cannot be read makes `pd.read_csv` raise. -/
def load_soumissions : FsFile → Except StoreErr (List LoadedRow)
  | .absent => .ok []
  | .present t => .ok (load_table t)
  | .unreadable => .error .storeUnavailable

/-- `save_soumissions` (lines 32-38): if the file exists, re-read the old
content, concatenate the new rows after it and rewrite the whole file;
otherwise write the new rows alone. -/
def save_soumissions (df_new : List Row) : FsFile → Except StoreErr FsFile
  | .absent => .ok (.present df_new)
  | .present old => .ok (.present (reser_table old ++ df_new))
  | .unreadable => .error .storeUnavailable

/-! ### Plain (non-numeric-looking) cells round-trip verbatim -/

/-- A cell the real `read_csv` keeps verbatim in an object column: neither
an NA token, nor numeric-looking, nor a boolean literal, nor an inf/nan
spelling.  The empty cell is also allowed: it goes through NaN and comes
back as `""` after `fillna("")`. -/
def plainCell (c : String) : Prop :=
  c = "" ∨ (¬ numericish c ∧ c ∉ naTokens ∧ ¬ boolish c ∧ ¬ infish c)

instance (c : String) : Decidable (plainCell c) := by
  unfold plainCell; infer_instance

/-- Every cell of the row is plain. -/
def plainRow (r : Row) : Prop :=
  plainCell r.nom ∧ plainCell r.prenom ∧ plainCell r.email ∧ plainCell r.niveau ∧
  plainCell r.parcours ∧ plainCell r.matiere ∧ plainCell r.priorite ∧
  plainCell r.remarques ∧ plainCell r.date_soumission

instance (r : Row) : Decidable (plainRow r) := by
  unfold plainRow; infer_instance

/-- Every cell of the table is plain. -/
def plainTable (t : List Row) : Prop := ∀ r ∈ t, plainRow r

instance (t : List Row) : Decidable (plainTable t) := by
  unfold plainTable; infer_instance

/-- The loaded image of a raw row in an all-object-dtype table: every cell
comes back as the same string. -/
def rowStr (r : Row) : LoadedRow :=
  { nom := .vStr r.nom
    prenom := .vStr r.prenom
    email := .vStr r.email
    niveau := .vStr r.niveau
    parcours := .vStr r.parcours
    matiere := .vStr r.matiere
    priorite := .vStr r.priorite
    remarques := .vStr r.remarques
    date_soumission := .vStr r.date_soumission }

/-! ## Validation block of `page_enseignant` (lines 294-320) -/

/-- `MIN_TOTAL` (line 294). -/
def MIN_TOTAL : Nat := 8

/-- `liste_priorites` (lines 209-214): the fixed ordered enumeration of
qualitative priority labels. -/
def liste_priorites : List String :=
  ["🌟 Fortement souhaité",
   "👍 Souhaité",
   "🧩 Je prends le défi",
   "⚙️ Disponible si besoin"]

/-- One selected row as seen by the validation block: the catalog columns
(restored to their original names by the rename at line 289) plus the
display-only priority column (accented display name), here `priorite`. -/
structure ChosenRow where
  course_code : String
  course_title : String
  level_code : String
  track_code : String
  ec_type : String
  priorite : String
deriving DecidableEq

/-- Minimum-count violation message (line 301). -/
def msgMin (n : Nat) : String :=
  "Vous devez choisir au moins **" ++
    (toString MIN_TOTAL ++ (" matières** (actuellement " ++ (toString n ++ ").")))

/-- Level-coverage violation message (line 305). -/
def msgNiv (ms : List String) : String :=
  "Niveaux sans choix : " ++
    String.intercalate ", " (ms.map fun m => "**" ++ m ++ "**") ++ " (min. 1 par niveau)."

/-- Track-coverage violation message (line 309). -/
def msgTrack (ts : List String) : String :=
  "Parcours sans choix : " ++
    String.intercalate ", " (ts.map fun t => "**" ++ t ++ "**") ++ " (min. 1 par parcours)."

/-- Priority-completeness violation message (line 312). -/
def msgPrio : String :=
  "Choisissez une **priorité** dans le panneau dédié pour chaque matière sélectionnée."

/-- `manquants_niv` (line 303): the required levels for which no chosen row
has that level. -/
def manquantsNiv (chosen : List ChosenRow) (niveaux_sel : List String) : List String :=
  niveaux_sel.filter (fun lvl => !(chosen.map (·.level_code)).contains lvl)

/-- `manquants_track` (line 307): the required tracks for which no chosen row
has that track. -/
def manquantsTrack (chosen : List ChosenRow) (parcours_sel : List String) : List String :=
  parcours_sel.filter (fun t => !(chosen.map (·.track_code)).contains t)

/-- The `erreurs` list built at lines 298-312, in source order: minimum
count, level coverage, track coverage, priority completeness.  Each rule
contributes its message independently; nothing short-circuits. -/
def erreurs (chosen : List ChosenRow) (niveaux_sel parcours_sel : List String) :
    List String :=
  (if chosen.length < MIN_TOTAL then [msgMin chosen.length] else [])
  ++ (if manquantsNiv chosen niveaux_sel ≠ [] then [msgNiv (manquantsNiv chosen niveaux_sel)]
      else [])
  ++ (if manquantsTrack chosen parcours_sel ≠ []
      then [msgTrack (manquantsTrack chosen parcours_sel)] else [])
  ++ (if chosen ≠ [] ∧ chosen.any (·.priorite == "") then [msgPrio] else [])

/-- A pandas exception escaping the page render. -/
inductive PdError where
  | keyError
deriving DecidableEq

/-- The validation block as it actually runs (lines 289-312): when the
selection is empty, the frame was never renamed (line 289 keeps the display
column names), so `chosen["level_code"]` at line 303 raises `KeyError` and
the render aborts before any violation is shown.  For a non-empty selection
the block produces the `erreurs` list. -/
def erreursRun (selection : List ChosenRow) (niveaux_sel parcours_sel : List String) :
    Except PdError (List String) :=
  if selection.isEmpty then .error .keyError
  else .ok (erreurs selection niveaux_sel parcours_sel)

/-- `cat_order` (line 325) as a total rank: position of a label in
`liste_priorites`; labels outside the enumeration rank after all of them
(pandas maps them to NaN, which `sort_values` places last). -/
def cat_order (s : String) : Nat := liste_priorites.indexOf s

/-- Save-side ordering of the chosen rows (line 326): ascending
`cat_order` of the priority label. -/
def catLe (a b : ChosenRow) : Prop := cat_order a.priorite ≤ cat_order b.priorite

instance : DecidableRel catLe := fun a b =>
  inferInstanceAs (Decidable (cat_order a.priorite ≤ cat_order b.priorite))

instance : IsTotal ChosenRow catLe := ⟨fun a b => Nat.le_total (cat_order a.priorite) (cat_order b.priorite)⟩

instance : IsTrans ChosenRow catLe := ⟨fun _ _ _ h1 h2 => Nat.le_trans h1 h2⟩

/-- `chosen.sort_values("Priorité", key=...)` (line 326). -/
def sortChosen (chosen : List ChosenRow) : List ChosenRow :=
  List.insertionSort catLe chosen

/-- The rows appended on a successful submit (lines 322-340): the chosen
rows sorted by label enumeration order, each flattened with the submitter
fields, the shared remark and the shared timestamp. -/
def buildLignes (nom prenom email remarque now : String) (chosen : List ChosenRow) :
    List Row :=
  (sortChosen chosen).map fun r =>
    { nom := nom
      prenom := prenom
      email := email
      niveau := r.level_code
      parcours := r.track_code
      matiere := r.course_title
      priorite := r.priorite
      remarques := remarque
      date_soumission := now }

/-- Outcome of one click of the save button. -/
inductive SubmitOutcome where
  | identityMissing
  | validationFailed (errs : List String)
  | storeFailed
  | saved
deriving DecidableEq

/-- The button handler (lines 314-341): reject if name or surname is blank,
then reject if any violation was collected, otherwise append the new rows to
the store. -/
def submitAttempt (nom prenom : String) (errs : List String) (df_new : List Row)
    (file : FsFile) : FsFile × SubmitOutcome :=
  if nom.trim = "" ∨ prenom.trim = "" then (file, .identityMissing)
  else if errs ≠ [] then (file, .validationFailed errs)
  else
    match save_soumissions df_new file with
    | .ok f => (f, .saved)
    | .error _ => (file, .storeFailed)

/-- One full submit attempt as rendered by `page_enseignant`: the validation
block runs first (and can abort the render with a pandas error); the button
handler then decides whether the store is touched. -/
def renderSubmit (nom prenom email remarque now : String) (selection : List ChosenRow)
    (niveaux_sel parcours_sel : List String) (file : FsFile) :
    Except PdError (FsFile × SubmitOutcome) :=
  match erreursRun selection niveaux_sel parcours_sel with
  | .error e => .error e
  | .ok errs =>
      .ok (submitAttempt nom prenom errs
        (buildLignes nom prenom email remarque now selection) file)

/-- State of the backing file after one submit attempt (an aborted render or
a rejected attempt leaves the file untouched). -/
def fileAfter (nom prenom email remarque now : String) (selection : List ChosenRow)
    (niveaux_sel parcours_sel : List String) (file : FsFile) : FsFile :=
  match renderSubmit nom prenom email remarque now selection niveaux_sel parcours_sel file with
  | .error _ => file
  | .ok (f, _) => f

/-! ## Admin display sort (line 381) -/

/-- The string pandas compares when sorting a column of the loaded frame.
The displayed columns (`date_soumission`, `priorite`) hold strings for every
table this application writes; the non-string cases are rendered to their
CSV text to keep the comparison total (pandas itself would raise a
`TypeError` on a mixed column, a case the theorems never rely on). -/
def vkey (v : Value) : String :=
  match v with
  | .vStr s => s
  | .vInt n => toString n
  | .vFloat n => toString n ++ ".0"

/-- The display order of `filtered.sort_values(["date_soumission","priorite"],
ascending=[False, True])` (line 381): submission time descending, and for
equal times the raw priority label string ascending — a plain lexicographic
(code-point) string comparison, as pandas performs on an object column. -/
def adminLe (a b : LoadedRow) : Prop :=
  vkey b.date_soumission < vkey a.date_soumission ∨
    (vkey a.date_soumission = vkey b.date_soumission ∧ vkey a.priorite ≤ vkey b.priorite)

instance : DecidableRel adminLe := fun a b =>
  inferInstanceAs (Decidable (vkey b.date_soumission < vkey a.date_soumission ∨
    (vkey a.date_soumission = vkey b.date_soumission ∧ vkey a.priorite ≤ vkey b.priorite)))

instance : IsTrans LoadedRow adminLe := by
  constructor
  intro a b c hab hbc
  rcases hab with h1 | ⟨h1, h1p⟩
  · rcases hbc with h2 | ⟨h2, _⟩
    · exact Or.inl (lt_trans h2 h1)
    · exact Or.inl (h2 ▸ h1)
  · rcases hbc with h2 | ⟨h2, h2p⟩
    · exact Or.inl (h1 ▸ h2)
    · exact Or.inr ⟨h1.trans h2, le_trans h1p h2p⟩

instance : IsTotal LoadedRow adminLe := by
  constructor
  intro a b
  rcases lt_trichotomy (vkey a.date_soumission) (vkey b.date_soumission) with h | h | h
  · exact Or.inr (Or.inl h)
  · rcases le_total (vkey a.priorite) (vkey b.priorite) with hp | hp
    · exact Or.inl (Or.inr ⟨h, hp⟩)
    · exact Or.inr (Or.inr ⟨h.symm, hp⟩)
  · exact Or.inl (Or.inl h)

/-- The sorted view the admin page displays (line 381). -/
def sortAdmin (rows : List LoadedRow) : List LoadedRow :=
  List.insertionSort adminLe rows

/-- Modelled from the spec (§4.4, §3): the display comparison the spec
prescribes — submission time descending, then the priority component ordered
by the fixed label enumeration of §3 ("Fortement souhaité" first,
"Disponible si besoin" last), not by lexicographic comparison of the label
strings.  Stated only to be compared with `adminLe`. -/
def specDisplayLe (a b : LoadedRow) : Prop :=
  vkey b.date_soumission < vkey a.date_soumission ∨
    (vkey a.date_soumission = vkey b.date_soumission ∧
      cat_order (vkey a.priorite) ≤ cat_order (vkey b.priorite))

instance : DecidableRel specDisplayLe := fun a b =>
  inferInstanceAs (Decidable (vkey b.date_soumission < vkey a.date_soumission ∨
    (vkey a.date_soumission = vkey b.date_soumission ∧
      cat_order (vkey a.priorite) ≤ cat_order (vkey b.priorite))))

/-! ## Session-state cleanup (lines 141-151 and 254-263) -/

/-- The slice of `st.session_state` the selection logic owns: the
priority map (`"priorites"`), the selected code list (`"selection_codes"`),
and the set of live widget keys (among them the per-code `prio_...` keys). -/
structure SessionState where
  priorites : List (String × String)
  selection_codes : List String
  widget_keys : List String
deriving DecidableEq

/-- One render cycle of the selection block of `page_enseignant`:

* lines 141-151: selections and priorities for codes no longer in the
  filtered catalog (`workCodes`) are pruned;
* lines 248-258: the grid yields the newly selected codes (`choose` applied
  to the catalog rows, in grid order) and the priority map is re-keyed by
  exactly those codes;
* lines 260-263: session keys `prio_...` not belonging to a selected code
  are deleted;
* lines 265-282: one selectbox per selected code registers its `prio_...`
  key and stores its returned label (`prioPick code currentValue`) into the
  priority map.

The grid is modelled as returning checkbox decisions on the catalog rows;
edits to other grid columns are presentation behavior outside this model. -/
def renderCycle (workCodes : List String) (choose : String → Bool)
    (prioPick : String → String → String) (s0 : SessionState) : SessionState :=
  let sel0 := s0.selection_codes.filter (fun c => workCodes.contains c)
  let prio0 := sel0.map (fun c => (c, ((s0.priorites.lookup c).getD "")))
  let sel1 := workCodes.filter choose
  let prio1 := sel1.map (fun c => (c, ((prio0.lookup c).getD "")))
  let prio2 := sel1.map (fun c => (c, prioPick c ((prio1.lookup c).getD "")))
  let active := sel1.map (fun c => "prio_" ++ c)
  let keys1 := s0.widget_keys.filter (fun k => !(k.startsWith "prio_") || active.contains k)
  { priorites := prio2
    selection_codes := sel1
    widget_keys := keys1 ++ active.filter (fun k => !keys1.contains k) }

/-! ## Spec-modelled validation engine (§4.3) for the ordinal-priority
variant -/

/-- Modelled from the spec (§3, §9): the two priority encodings appearing
across repository revisions — a numeric rank or a qualitative label.  The
revision in `src/app.py` only has labels; the ordinal encoding exists only
in other revisions of the repository. -/
inductive SpecPriority where
  | rank (n : Int)
  | label (s : String)
deriving DecidableEq

/-- Modelled from the spec (§3): one selection entry, with an unset priority
represented as `none`. -/
structure SpecEntry where
  code : String
  level : String
  track : String
  priority : Option SpecPriority
deriving DecidableEq

/-- Modelled from the spec (§4.3): the priority-encoding configuration. -/
inductive PriorityMode where
  | ordinal
  | qualitative
deriving DecidableEq

/-- The numeric priority values carried by the entries. -/
def specRanks (entries : List SpecEntry) : List Int :=
  entries.filterMap fun e =>
    match e.priority with
    | some (.rank n) => some n
    | _ => none

/-- The uniqueness violation message of spec rule 5. -/
def specUniqMsg : String := "duplicate numeric priority values"

/-- Modelled from the spec (§4.3): `validate` — rules 1-4 as in the source
validation block, plus rule 5 (priority uniqueness), which applies only in
ordinal mode.  All rules are evaluated and reported independently.  The
required levels covered by no entry: -/
def specMissingLevels (entries : List SpecEntry) (requiredLevels : List String) :
    List String :=
  requiredLevels.filter (fun l => !(entries.map (·.level)).contains l)

/-- The required tracks covered by no entry. -/
def specMissingTracks (entries : List SpecEntry) (requiredTracks : List String) :
    List String :=
  requiredTracks.filter (fun t => !(entries.map (·.track)).contains t)

/-- Modelled from the spec (§4.3): the violation list of `validate`. -/
def specViolations (entries : List SpecEntry) (requiredLevels requiredTracks : List String)
    (minimumTotal : Nat) (mode : PriorityMode) : List String :=
  (if entries.length < minimumTotal then
    ["minimum count: " ++ toString minimumTotal ++ " required, " ++
      toString entries.length ++ " selected"] else [])
  ++ (if specMissingLevels entries requiredLevels ≠ [] then
      ["missing levels: " ++ String.intercalate ", " (specMissingLevels entries requiredLevels)]
      else [])
  ++ (if specMissingTracks entries requiredTracks ≠ [] then
      ["missing tracks: " ++ String.intercalate ", " (specMissingTracks entries requiredTracks)]
      else [])
  ++ (if entries.any (fun e => e.priority.isNone) then ["unset priority"] else [])
  ++ (if mode = .ordinal ∧ ¬(specRanks entries).Nodup then [specUniqMsg] else [])

/-- Modelled from the spec (§4.3): `ok` is true iff no violation. -/
def specOk (entries : List SpecEntry) (requiredLevels requiredTracks : List String)
    (minimumTotal : Nat) (mode : PriorityMode) : Prop :=
  specViolations entries requiredLevels requiredTracks minimumTotal mode = []

/-- Replace every priority label of the chosen rows through `f` (used to
state that label values beyond emptiness cannot influence validation). -/
def relabel (f : String → String) (chosen : List ChosenRow) : List ChosenRow :=
  chosen.map fun r => { r with priorite := f r.priorite }

/-- The concrete written row refuting C6: its `nom` cell is the string `"8"`. -/
def c6row : Row :=
  { nom := "8", prenom := "Durand", email := "", niveau := "L3", parcours := "GC",
    matiere := "Beton arme", priorite := "🌟 Fortement souhaité", remarques := "",
    date_soumission := "d un" }

/-- Sample selection for the C1 witness. -/
def c1chosen : List ChosenRow :=
  [{ course_code := "GC101", course_title := "Beton arme", level_code := "L3",
     track_code := "GC", ec_type := "CM", priorite := "🌟 Fortement souhaité" }]

/-- Sample selection for the C2 witness: covers L3, leaves M1 uncovered. -/
def c2chosen : List ChosenRow :=
  [{ course_code := "GC101", course_title := "Beton arme", level_code := "L3",
     track_code := "GC", ec_type := "CM", priorite := "👍 Souhaité" }]

/-- Sample selection for the C4 witness: min count fails, level M1 and track
VOA uncovered, one empty priority. -/
def c4chosen : List ChosenRow :=
  [{ course_code := "A1", course_title := "T un", level_code := "L3",
     track_code := "GC", ec_type := "CM", priorite := "" },
   { course_code := "A2", course_title := "T deux", level_code := "L3",
     track_code := "GC", ec_type := "CM", priorite := "👍 Souhaité" }]

/-- Rewrite the qualitative label of one spec entry through `g` (numeric
ranks and unset priorities are untouched). -/
def specRelabelEntry (g : String → String) (e : SpecEntry) : SpecEntry :=
  { e with
    priority :=
      match e.priority with
      | some (.label s) => some (.label (g s))
      | p => p }

/-- Rewrite every qualitative label of the entries through `g`. -/
def specRelabel (g : String → String) (entries : List SpecEntry) : List SpecEntry :=
  entries.map (specRelabelEntry g)

/-- Entries for the C3 witness: two entries share the numeric rank 3. -/
def c3entries : List SpecEntry :=
  [{ code := "A", level := "L3", track := "GC", priority := some (.rank 3) },
   { code := "B", level := "M1", track := "GC", priority := some (.rank 3) }]

/-- Selection for the C3 witness: two rows with the same label. -/
def c3chosen : List ChosenRow :=
  [{ course_code := "A1", course_title := "T un", level_code := "L3",
     track_code := "GC", ec_type := "CM", priorite := "👍 Souhaité" },
   { course_code := "A2", course_title := "T deux", level_code := "L3",
     track_code := "GC", ec_type := "CM", priorite := "👍 Souhaité" }]

/-- The two stored rows refuting C8's claim about the display ordering: same
submission time, one strongly-desired label, one available-if-needed
label. -/
def c8r1 : LoadedRow :=
  { nom := .vStr "Alice", prenom := .vStr "Durand", email := .vStr "",
    niveau := .vStr "L3", parcours := .vStr "GC", matiere := .vStr "Beton arme",
    priorite := .vStr "🌟 Fortement souhaité", remarques := .vStr "",
    date_soumission := .vStr "2025-01-06 10:00:00" }

/-- Second row for the C8 counterexample. -/
def c8r2 : LoadedRow :=
  { nom := .vStr "Alice", prenom := .vStr "Durand", email := .vStr "",
    niveau := .vStr "M1", parcours := .vStr "VOA", matiere := .vStr "Routes",
    priorite := .vStr "⚙️ Disponible si besoin", remarques := .vStr "",
    date_soumission := .vStr "2025-01-06 10:00:00" }

theorem numericish_of_isSome (c : String) (h : (parseIntOpt c).isSome = true) :
    numericish c := by
  rcases hd : c.data with _ | ⟨ch, rest⟩
  · unfold parseIntOpt at h
    rw [hd] at h
    simp at h
  · have hne : c ≠ "" := by
      intro hc
      rw [hc] at hd
      exact absurd hd (by simp)
    unfold parseIntOpt at h
    rw [hd] at h
    refine ⟨hne, ?_⟩
    rw [hd]
    simp only [] at h
    by_cases h1 : ch = '-'
    · rw [if_pos h1] at h
      by_cases h2 : rest ≠ [] ∧ rest.all Char.isDigit
      · intro x hx
        rcases List.mem_cons.mp hx with hx | hx
        · exact Or.inr (Or.inr (Or.inl (hx.trans h1)))
        · exact Or.inl (List.all_eq_true.mp h2.2 x hx)
      · rw [if_neg h2] at h
        simp at h
    · rw [if_neg h1] at h
      by_cases h2 : ch = '+'
      · rw [if_pos h2] at h
        by_cases h3 : rest ≠ [] ∧ rest.all Char.isDigit
        · intro x hx
          rcases List.mem_cons.mp hx with hx | hx
          · exact Or.inr (Or.inl (hx.trans h2))
          · exact Or.inl (List.all_eq_true.mp h3.2 x hx)
        · rw [if_neg h3] at h
          simp at h
      · rw [if_neg h2] at h
        by_cases h3 : (ch :: rest).all Char.isDigit
        · intro x hx
          exact Or.inl (List.all_eq_true.mp h3 x hx)
        · rw [if_neg h3] at h
          simp at h

theorem plainCell_parseInt (c : String) (h : plainCell c) : parseIntOpt c = none := by
  rcases h with h | ⟨hn, -, -, -⟩
  · rw [h]
    rfl
  · by_contra hne
    exact hn (numericish_of_isSome c (Option.isSome_iff_ne_none.mpr hne))

theorem plainCell_contains (c : String) (h : plainCell c) :
    c ∉ naTokens ∨ c = "" := by
  rcases h with h | ⟨-, hna, -, -⟩
  · exact Or.inr h
  · exact Or.inl hna

theorem colMode_of_plain (cells : List String)
    (h : ∀ c ∈ cells, parseIntOpt c = none) : colMode cells = .mObj := by
  unfold colMode
  rcases cells with _ | ⟨c, cs⟩
  · simp
  · have h1 : ¬ ((c :: cs) ≠ [] ∧ (c :: cs).all (fun c => (parseIntOpt c).isSome)) := by
      rintro ⟨-, hall⟩
      have := List.all_eq_true.mp hall c (by simp)
      simp [h c (by simp)] at this
    have h2 : ¬ ((c :: cs).any (fun c => (parseIntOpt c).isSome) ∧
        (c :: cs).all (fun c => naTokens.contains c || (parseIntOpt c).isSome)) := by
      rintro ⟨hany, -⟩
      rcases List.any_eq_true.mp hany with ⟨d, hd, hds⟩
      simp [h d hd] at hds
    rw [if_neg h1, if_neg h2]

theorem loadCell_obj (c : String) (h : c ∉ naTokens ∨ c = "") :
    loadCell .mObj c = .vStr c := by
  rcases h with h | h
  · unfold loadCell parseP fillnaP
    simp [h]
  · subst h
    rfl

theorem reserCell_obj (c : String) (h : c ∉ naTokens ∨ c = "") :
    reserCell .mObj c = c := by
  rcases h with h | h
  · unfold reserCell parseP renderP
    simp [h]
  · subst h
    rfl

theorem load_table_of_plain (t : List Row) (h : plainTable t) :
    load_table t = t.map rowStr := by
  unfold load_table
  have hcol : ∀ f : Row → String, (∀ r : Row, plainRow r → plainCell (f r)) →
      colMode (t.map f) = .mObj := by
    intro f hf
    apply colMode_of_plain
    intro c hc
    rcases List.mem_map.mp hc with ⟨r, hr, rfl⟩
    exact plainCell_parseInt _ (hf r (h r hr))
  rw [hcol (·.nom) (fun r hr => hr.1), hcol (·.prenom) (fun r hr => hr.2.1),
      hcol (·.email) (fun r hr => hr.2.2.1), hcol (·.niveau) (fun r hr => hr.2.2.2.1),
      hcol (·.parcours) (fun r hr => hr.2.2.2.2.1),
      hcol (·.matiere) (fun r hr => hr.2.2.2.2.2.1),
      hcol (·.priorite) (fun r hr => hr.2.2.2.2.2.2.1),
      hcol (·.remarques) (fun r hr => hr.2.2.2.2.2.2.2.1),
      hcol (·.date_soumission) (fun r hr => hr.2.2.2.2.2.2.2.2)]
  apply List.map_congr_left
  intro r hr
  obtain ⟨h1, h2, h3, h4, h5, h6, h7, h8, h9⟩ := h r hr
  rw [loadCell_obj _ (plainCell_contains _ h1), loadCell_obj _ (plainCell_contains _ h2),
      loadCell_obj _ (plainCell_contains _ h3), loadCell_obj _ (plainCell_contains _ h4),
      loadCell_obj _ (plainCell_contains _ h5), loadCell_obj _ (plainCell_contains _ h6),
      loadCell_obj _ (plainCell_contains _ h7), loadCell_obj _ (plainCell_contains _ h8),
      loadCell_obj _ (plainCell_contains _ h9)]
  rfl

theorem reser_table_of_plain (t : List Row) (h : plainTable t) :
    reser_table t = t := by
  unfold reser_table
  have hcol : ∀ f : Row → String, (∀ r : Row, plainRow r → plainCell (f r)) →
      colMode (t.map f) = .mObj := by
    intro f hf
    apply colMode_of_plain
    intro c hc
    rcases List.mem_map.mp hc with ⟨r, hr, rfl⟩
    exact plainCell_parseInt _ (hf r (h r hr))
  rw [hcol (·.nom) (fun r hr => hr.1), hcol (·.prenom) (fun r hr => hr.2.1),
      hcol (·.email) (fun r hr => hr.2.2.1), hcol (·.niveau) (fun r hr => hr.2.2.2.1),
      hcol (·.parcours) (fun r hr => hr.2.2.2.2.1),
      hcol (·.matiere) (fun r hr => hr.2.2.2.2.2.1),
      hcol (·.priorite) (fun r hr => hr.2.2.2.2.2.2.1),
      hcol (·.remarques) (fun r hr => hr.2.2.2.2.2.2.2.1),
      hcol (·.date_soumission) (fun r hr => hr.2.2.2.2.2.2.2.2)]
  have : ∀ r ∈ t,
      ({ nom := reserCell .mObj r.nom
         prenom := reserCell .mObj r.prenom
         email := reserCell .mObj r.email
         niveau := reserCell .mObj r.niveau
         parcours := reserCell .mObj r.parcours
         matiere := reserCell .mObj r.matiere
         priorite := reserCell .mObj r.priorite
         remarques := reserCell .mObj r.remarques
         date_soumission := reserCell .mObj r.date_soumission } : Row) = r := by
    intro r hr
    obtain ⟨h1, h2, h3, h4, h5, h6, h7, h8, h9⟩ := h r hr
    rw [reserCell_obj _ (plainCell_contains _ h1), reserCell_obj _ (plainCell_contains _ h2),
        reserCell_obj _ (plainCell_contains _ h3), reserCell_obj _ (plainCell_contains _ h4),
        reserCell_obj _ (plainCell_contains _ h5), reserCell_obj _ (plainCell_contains _ h6),
        reserCell_obj _ (plainCell_contains _ h7), reserCell_obj _ (plainCell_contains _ h8),
        reserCell_obj _ (plainCell_contains _ h9)]
  rw [List.map_congr_left this]
  exact List.map_id t

/-! ## Helper lemmas about the violation messages and the `erreurs` list -/

theorem front_ne {s t : String} {c d : Char} (hs : s.data.head? = some c)
    (ht : t.data.head? = some d) (hcd : c ≠ d) : s ≠ t := by
  intro h
  rw [h, ht] at hs
  exact hcd (Option.some.inj hs).symm

theorem msgMin_head (n : Nat) : (msgMin n).data.head? = some 'V' := by
  unfold msgMin
  rw [String.data_append, List.head?_append_of_ne_nil _ (by decide)]
  rfl

theorem msgNiv_head (ms : List String) : (msgNiv ms).data.head? = some 'N' := by
  unfold msgNiv
  rw [String.data_append, String.data_append, List.append_assoc,
    List.head?_append_of_ne_nil _ (by decide)]
  rfl

theorem msgTrack_head (ts : List String) : (msgTrack ts).data.head? = some 'P' := by
  unfold msgTrack
  rw [String.data_append, String.data_append, List.append_assoc,
    List.head?_append_of_ne_nil _ (by decide)]
  rfl

theorem msgPrio_head : msgPrio.data.head? = some 'C' := rfl

theorem msgMin_ne_msgNiv (n : Nat) (ms : List String) : msgMin n ≠ msgNiv ms :=
  front_ne (msgMin_head n) (msgNiv_head ms) (by decide)

theorem msgMin_ne_msgTrack (n : Nat) (ts : List String) : msgMin n ≠ msgTrack ts :=
  front_ne (msgMin_head n) (msgTrack_head ts) (by decide)

theorem msgMin_ne_msgPrio (n : Nat) : msgMin n ≠ msgPrio :=
  front_ne (msgMin_head n) msgPrio_head (by decide)

theorem msgNiv_ne_msgTrack (ms ts : List String) : msgNiv ms ≠ msgTrack ts :=
  front_ne (msgNiv_head ms) (msgTrack_head ts) (by decide)

theorem msgNiv_ne_msgPrio (ms : List String) : msgNiv ms ≠ msgPrio :=
  front_ne (msgNiv_head ms) msgPrio_head (by decide)

theorem msgTrack_ne_msgPrio (ts : List String) : msgTrack ts ≠ msgPrio :=
  front_ne (msgTrack_head ts) msgPrio_head (by decide)

theorem mem_manquantsNiv (chosen : List ChosenRow) (niveaux_sel : List String)
    (lvl : String) :
    lvl ∈ manquantsNiv chosen niveaux_sel ↔
      lvl ∈ niveaux_sel ∧ lvl ∉ chosen.map (·.level_code) := by
  simp [manquantsNiv, List.mem_filter]

theorem mem_manquantsTrack (chosen : List ChosenRow) (parcours_sel : List String)
    (t : String) :
    t ∈ manquantsTrack chosen parcours_sel ↔
      t ∈ parcours_sel ∧ t ∉ chosen.map (·.track_code) := by
  simp [manquantsTrack, List.mem_filter]

theorem mem_erreurs_min (chosen : List ChosenRow) (niveaux_sel parcours_sel : List String) :
    msgMin chosen.length ∈ erreurs chosen niveaux_sel parcours_sel ↔
      chosen.length < MIN_TOTAL := by
  unfold erreurs
  split_ifs with h1 h2 h3 h4 <;>
    simp_all [msgMin_ne_msgNiv, msgMin_ne_msgTrack, msgMin_ne_msgPrio]

theorem mem_erreurs_niv (chosen : List ChosenRow) (niveaux_sel parcours_sel : List String)
    (hm : manquantsNiv chosen niveaux_sel ≠ []) :
    msgNiv (manquantsNiv chosen niveaux_sel) ∈ erreurs chosen niveaux_sel parcours_sel := by
  unfold erreurs
  split_ifs <;> simp_all

theorem erreurs_eq_nil_iff (chosen : List ChosenRow) (niveaux_sel parcours_sel : List String) :
    erreurs chosen niveaux_sel parcours_sel = [] ↔
      ¬ chosen.length < MIN_TOTAL ∧ manquantsNiv chosen niveaux_sel = [] ∧
        manquantsTrack chosen parcours_sel = [] ∧
        ¬ (chosen ≠ [] ∧ chosen.any (·.priorite == "")) := by
  unfold erreurs
  split_ifs <;> simp_all

theorem erreurs_ne_nil_of_min (chosen : List ChosenRow)
    (niveaux_sel parcours_sel : List String) (h : chosen.length < MIN_TOTAL) :
    erreurs chosen niveaux_sel parcours_sel ≠ [] := by
  intro he
  exact ((erreurs_eq_nil_iff chosen niveaux_sel parcours_sel).mp he).1 h

/-! ## Helper lemmas about the submit pipeline -/

theorem fileAfter_eq_of_reject (nom prenom email remarque now : String)
    (selection : List ChosenRow) (niveaux_sel parcours_sel : List String) (file : FsFile)
    (h : selection = [] ∨ nom.trim = "" ∨ prenom.trim = "" ∨
      erreurs selection niveaux_sel parcours_sel ≠ []) :
    fileAfter nom prenom email remarque now selection niveaux_sel parcours_sel file = file := by
  unfold fileAfter renderSubmit erreursRun submitAttempt
  by_cases hs : selection.isEmpty
  · simp [hs]
  · simp only [hs, if_false, Bool.false_eq_true]
    by_cases hn : nom.trim = "" ∨ prenom.trim = ""
    · simp [hn]
    · rcases h with h | h | h | h
      · exact absurd (h.symm ▸ (rfl : ([] : List ChosenRow).isEmpty = true)) hs
      · exact absurd (Or.inl h) hn
      · exact absurd (Or.inr h) hn
      · simp [hn, h]

theorem fileAfter_changed (nom prenom email remarque now : String)
    (selection : List ChosenRow) (niveaux_sel parcours_sel : List String) (file : FsFile)
    (h : fileAfter nom prenom email remarque now selection niveaux_sel parcours_sel file ≠ file) :
    selection ≠ [] ∧ nom.trim ≠ "" ∧ prenom.trim ≠ "" ∧
      erreurs selection niveaux_sel parcours_sel = [] := by
  by_cases h1 : selection = []
  · exact absurd (fileAfter_eq_of_reject _ _ _ _ _ _ _ _ _ (Or.inl h1)) h
  by_cases h2 : nom.trim = ""
  · exact absurd (fileAfter_eq_of_reject _ _ _ _ _ _ _ _ _ (Or.inr (Or.inl h2))) h
  by_cases h3 : prenom.trim = ""
  · exact absurd (fileAfter_eq_of_reject _ _ _ _ _ _ _ _ _ (Or.inr (Or.inr (Or.inl h3)))) h
  by_cases h4 : erreurs selection niveaux_sel parcours_sel = []
  · exact ⟨h1, h2, h3, h4⟩
  · exact absurd (fileAfter_eq_of_reject _ _ _ _ _ _ _ _ _ (Or.inr (Or.inr (Or.inr h4)))) h

/-! ## Claims -/

/-- C9: when the backing file of the submission store does not exist, a full
read yields "no data yet" — the empty row sequence under the fixed column
schema — rather than a hard error; the hard error (`StoreUnavailable`, i.e.
`pd.read_csv` raising) is reserved for a file that exists but cannot be
read, while an existing readable file is always parsed. -/
theorem claim_C9_missing_store_reads_empty :
    load_soumissions .absent = .ok ([] : List LoadedRow) ∧
    load_soumissions .unreadable = .error .storeUnavailable ∧
    ∀ t, load_soumissions (.present t) = .ok (load_table t) :=
  ⟨rfl, rfl, fun _ => rfl⟩

/-- C5: sequential appends never overwrite or remove previously persisted
rows: after `append(A)` then `append(B)` on an initially absent store,
`readAll` returns exactly A's rows followed by B's rows (loaded back as the
same strings), so it contains every row of A and of B, and its length is
`|A| + |B|`.  The hypotheses `plainTable` restrict the statement to cells
the real `read_csv` keeps verbatim — not a default NA token (such as "NA"),
not numeric-looking, not a boolean or inf/nan spelling; empty cells
round-trip as empty strings.  Cells outside that set are coerced by the
store's read/rewrite cycles and are the subject of C6. -/
theorem claim_C5_sequential_appends_lose_nothing (A B : List Row) (f1 f2 : FsFile)
    (out : List LoadedRow) (hA : plainTable A) (hB : plainTable B)
    (h1 : save_soumissions A .absent = .ok f1)
    (h2 : save_soumissions B f1 = .ok f2)
    (h3 : load_soumissions f2 = .ok out) :
    out = A.map rowStr ++ B.map rowStr ∧
    (∀ r ∈ A, rowStr r ∈ out) ∧ (∀ r ∈ B, rowStr r ∈ out) ∧
    out.length = A.length + B.length := by
  have hf1 : FsFile.present A = f1 := Except.ok.inj h1
  subst hf1
  have hf2 : FsFile.present (reser_table A ++ B) = f2 := Except.ok.inj h2
  rw [reser_table_of_plain A hA] at hf2
  subst hf2
  have hout : load_table (A ++ B) = out := Except.ok.inj h3
  have hplain : plainTable (A ++ B) := by
    intro r hr
    rcases List.mem_append.mp hr with h | h
    · exact hA r h
    · exact hB r h
  rw [load_table_of_plain _ hplain, List.map_append] at hout
  refine ⟨hout.symm, ?_, ?_, ?_⟩
  · intro r hr
    rw [← hout]
    exact List.mem_append_left _ (List.mem_map_of_mem _ hr)
  · intro r hr
    rw [← hout]
    exact List.mem_append_right _ (List.mem_map_of_mem _ hr)
  · rw [← hout]
    simp

/-- Witness for C5 at a concrete pair of one-row appends. -/
theorem claim_C5_sequential_appends_lose_nothing_witness :
    ([({ nom := "Alice", prenom := "Durand", email := "", niveau := "L3",
         parcours := "GC", matiere := "Beton arme", priorite := "🌟 Fortement souhaité",
         remarques := "", date_soumission := "d un" } : Row)].map rowStr ++
     [({ nom := "Br", prenom := "Em", email := "", niveau := "M1",
         parcours := "VOA", matiere := "Routes", priorite := "👍 Souhaité",
         remarques := "", date_soumission := "d deux" } : Row)].map rowStr =
      [({ nom := "Alice", prenom := "Durand", email := "", niveau := "L3",
          parcours := "GC", matiere := "Beton arme", priorite := "🌟 Fortement souhaité",
          remarques := "", date_soumission := "d un" } : Row)].map rowStr ++
      [({ nom := "Br", prenom := "Em", email := "", niveau := "M1",
          parcours := "VOA", matiere := "Routes", priorite := "👍 Souhaité",
          remarques := "", date_soumission := "d deux" } : Row)].map rowStr) ∧
    (∀ r ∈ [({ nom := "Alice", prenom := "Durand", email := "", niveau := "L3",
               parcours := "GC", matiere := "Beton arme", priorite := "🌟 Fortement souhaité",
               remarques := "", date_soumission := "d un" } : Row)],
      rowStr r ∈
        [({ nom := "Alice", prenom := "Durand", email := "", niveau := "L3",
            parcours := "GC", matiere := "Beton arme", priorite := "🌟 Fortement souhaité",
            remarques := "", date_soumission := "d un" } : Row)].map rowStr ++
        [({ nom := "Br", prenom := "Em", email := "", niveau := "M1",
            parcours := "VOA", matiere := "Routes", priorite := "👍 Souhaité",
            remarques := "", date_soumission := "d deux" } : Row)].map rowStr) ∧
    (∀ r ∈ [({ nom := "Br", prenom := "Em", email := "", niveau := "M1",
               parcours := "VOA", matiere := "Routes", priorite := "👍 Souhaité",
               remarques := "", date_soumission := "d deux" } : Row)],
      rowStr r ∈
        [({ nom := "Alice", prenom := "Durand", email := "", niveau := "L3",
            parcours := "GC", matiere := "Beton arme", priorite := "🌟 Fortement souhaité",
            remarques := "", date_soumission := "d un" } : Row)].map rowStr ++
        [({ nom := "Br", prenom := "Em", email := "", niveau := "M1",
            parcours := "VOA", matiere := "Routes", priorite := "👍 Souhaité",
            remarques := "", date_soumission := "d deux" } : Row)].map rowStr) ∧
    ([({ nom := "Alice", prenom := "Durand", email := "", niveau := "L3",
         parcours := "GC", matiere := "Beton arme", priorite := "🌟 Fortement souhaité",
         remarques := "", date_soumission := "d un" } : Row)].map rowStr ++
     [({ nom := "Br", prenom := "Em", email := "", niveau := "M1",
         parcours := "VOA", matiere := "Routes", priorite := "👍 Souhaité",
         remarques := "", date_soumission := "d deux" } : Row)].map rowStr).length = 1 + 1 := by
  have h := claim_C5_sequential_appends_lose_nothing
    [{ nom := "Alice", prenom := "Durand", email := "", niveau := "L3",
       parcours := "GC", matiere := "Beton arme", priorite := "🌟 Fortement souhaité",
       remarques := "", date_soumission := "d un" }]
    [{ nom := "Br", prenom := "Em", email := "", niveau := "M1",
       parcours := "VOA", matiere := "Routes", priorite := "👍 Souhaité",
       remarques := "", date_soumission := "d deux" }]
    _ _ _ (by decide) (by decide) rfl rfl rfl
  exact ⟨h.1.symm.trans h.1, h.2.1, h.2.2.1, h.1 ▸ h.2.2.2⟩

/-- Counterexample to C6 as stated: a submission whose `nom` field is the
string `"8"` is appended, and `readAll` retrieves the integer `8` instead —
`pd.read_csv` dtype inference coerces the all-integer column.  So the
retrieved field value is not identical to what was written. -/
theorem claim_C6_counterexample :
    save_soumissions [c6row] .absent = .ok (.present [c6row]) ∧
    load_soumissions (.present [c6row]) =
      .ok [{ nom := .vInt 8, prenom := .vStr "Durand", email := .vStr "",
             niveau := .vStr "L3", parcours := .vStr "GC",
             matiere := .vStr "Beton arme", priorite := .vStr "🌟 Fortement souhaité",
             remarques := .vStr "", date_soumission := .vStr "d un" }] ∧
    c6row.nom = "8" ∧ (Value.vInt 8 ≠ Value.vStr "8") :=
  ⟨rfl, rfl, rfl, by decide⟩

/-- C6 amended: the round trip reproduces every field verbatim whenever
every written cell is plain — not one of `read_csv`'s default NA tokens,
not numeric-looking, not a boolean literal, not an inf/nan spelling — with
empty cells coming back as empty strings.  Other cells are coerced by
`pd.read_csv`: a written `"8"` comes back as the integer `8` (or as the
float `8.0` in a column that also holds NA cells), and a written NA token
such as `"NA"` or `"n/a"` comes back as `""`. -/
theorem claim_C6_roundtrip_verbatim_for_plain_cells (A : List Row) (f : FsFile)
    (out : List LoadedRow) (hA : plainTable A)
    (h1 : save_soumissions A .absent = .ok f)
    (h2 : load_soumissions f = .ok out) :
    out = A.map rowStr := by
  have hf : FsFile.present A = f := Except.ok.inj h1
  subst hf
  have hout : load_table A = out := Except.ok.inj h2
  rw [load_table_of_plain A hA] at hout
  exact hout.symm

/-- Witness for the amended C6 at a concrete one-row submission. -/
theorem claim_C6_roundtrip_verbatim_for_plain_cells_witness :
    ([({ nom := "Claire", prenom := "Martin", email := "cm at uni", niveau := "M1",
         parcours := "VOA", matiere := "Routes", priorite := "👍 Souhaité",
         remarques := "", date_soumission := "d deux" } : Row)] :
      List Row).map rowStr =
    [({ nom := "Claire", prenom := "Martin", email := "cm at uni", niveau := "M1",
        parcours := "VOA", matiere := "Routes", priorite := "👍 Souhaité",
        remarques := "", date_soumission := "d deux" } : Row)].map rowStr := by
  have h := claim_C6_roundtrip_verbatim_for_plain_cells
    [{ nom := "Claire", prenom := "Martin", email := "cm at uni", niveau := "M1",
       parcours := "VOA", matiere := "Routes", priorite := "👍 Souhaité",
       remarques := "", date_soumission := "d deux" }]
    _ _ (by decide) rfl rfl
  exact h.symm.trans h

theorem mem_erreurs_track (chosen : List ChosenRow) (niveaux_sel parcours_sel : List String)
    (hm : manquantsTrack chosen parcours_sel ≠ []) :
    msgTrack (manquantsTrack chosen parcours_sel) ∈ erreurs chosen niveaux_sel parcours_sel := by
  unfold erreurs
  split_ifs <;> simp_all

theorem mem_erreurs_prio (chosen : List ChosenRow) (niveaux_sel parcours_sel : List String)
    (hne : chosen ≠ []) (h : chosen.any (·.priorite == "")) :
    msgPrio ∈ erreurs chosen niveaux_sel parcours_sel := by
  unfold erreurs
  split_ifs <;> simp_all

/-- C1: every selection smaller than `MIN_TOTAL = 8` is rejected with a
minimum-count violation whose message carries the required and the actual
count — proved for every non-empty selection; for the empty selection the
code instead aborts the render with a pandas `KeyError` (the empty frame
kept its display column names, so `chosen["level_code"]` at line 303
raises), so no violation and no result is reported there at all. -/
theorem claim_C1_minimum_count :
    (∀ niveaux_sel parcours_sel : List String,
      erreursRun [] niveaux_sel parcours_sel = .error .keyError) ∧
    (∀ (chosen : List ChosenRow) (niveaux_sel parcours_sel : List String),
      chosen ≠ [] → chosen.length < MIN_TOTAL →
        msgMin chosen.length ∈ erreurs chosen niveaux_sel parcours_sel ∧
        (∃ p q r : String, msgMin chosen.length =
          p ++ (toString MIN_TOTAL ++ (q ++ (toString chosen.length ++ r)))) ∧
        erreurs chosen niveaux_sel parcours_sel ≠ [] ∧
        ∀ nom prenom email remarque now file,
          fileAfter nom prenom email remarque now chosen niveaux_sel parcours_sel file = file) := by
  refine ⟨fun _ _ => rfl, fun chosen niv par hne hlt => ?_⟩
  exact ⟨(mem_erreurs_min chosen niv par).mpr hlt,
    ⟨"Vous devez choisir au moins **", " matières** (actuellement ", ").", rfl⟩,
    erreurs_ne_nil_of_min chosen niv par hlt,
    fun nom prenom email remarque now file =>
      fileAfter_eq_of_reject nom prenom email remarque now chosen niv par file
        (Or.inr (Or.inr (Or.inr (erreurs_ne_nil_of_min chosen niv par hlt))))⟩

/-- Witness for C1 at a concrete one-row selection. -/
theorem claim_C1_minimum_count_witness :
    msgMin c1chosen.length ∈ erreurs c1chosen ["L3"] ["GC"] ∧
    (∃ p q r : String, msgMin c1chosen.length =
      p ++ (toString MIN_TOTAL ++ (q ++ (toString c1chosen.length ++ r)))) ∧
    erreurs c1chosen ["L3"] ["GC"] ≠ [] ∧
    ∀ nom prenom email remarque now file,
      fileAfter nom prenom email remarque now c1chosen ["L3"] ["GC"] file = file :=
  claim_C1_minimum_count.2 c1chosen ["L3"] ["GC"] (by decide) (by decide)

/-- C2: the level-coverage rule lists exactly the required levels covered by
no selected entry — every missing level is in `manquants_niv` and no covered
level is, and the violation carrying that list is reported — proved for
every non-empty selection; for the empty selection the rule itself is the
expression that raises `KeyError` (line 303 on a frame without a
`level_code` column), so nothing is listed there. -/
theorem claim_C2_level_coverage :
    (∀ niveaux_sel parcours_sel : List String,
      erreursRun [] niveaux_sel parcours_sel = .error .keyError) ∧
    (∀ (chosen : List ChosenRow) (niveaux_sel : List String) (lvl : String),
      chosen ≠ [] →
        (lvl ∈ manquantsNiv chosen niveaux_sel ↔
          lvl ∈ niveaux_sel ∧ lvl ∉ chosen.map (·.level_code))) ∧
    (∀ (chosen : List ChosenRow) (niveaux_sel parcours_sel : List String),
      chosen ≠ [] → manquantsNiv chosen niveaux_sel ≠ [] →
        msgNiv (manquantsNiv chosen niveaux_sel) ∈ erreurs chosen niveaux_sel parcours_sel) :=
  ⟨fun _ _ => rfl,
   fun chosen niv lvl _ => mem_manquantsNiv chosen niv lvl,
   fun chosen niv par _ hm => mem_erreurs_niv chosen niv par hm⟩

/-- Witness for C2: with required levels L3 and M1 and a selection covering
only L3, the missing list holds exactly M1 and its violation is reported. -/
theorem claim_C2_level_coverage_witness :
    ("M1" ∈ manquantsNiv c2chosen ["L3", "M1"] ↔
      "M1" ∈ ["L3", "M1"] ∧ "M1" ∉ c2chosen.map (·.level_code)) ∧
    ("L3" ∈ manquantsNiv c2chosen ["L3", "M1"] ↔
      "L3" ∈ ["L3", "M1"] ∧ "L3" ∉ c2chosen.map (·.level_code)) ∧
    msgNiv (manquantsNiv c2chosen ["L3", "M1"]) ∈ erreurs c2chosen ["L3", "M1"] [] :=
  ⟨claim_C2_level_coverage.2.1 c2chosen ["L3", "M1"] "M1" (by decide),
   claim_C2_level_coverage.2.1 c2chosen ["L3", "M1"] "L3" (by decide),
   claim_C2_level_coverage.2.2 c2chosen ["L3", "M1"] [] (by decide) (by decide)⟩

/-- C4: for every non-empty selection, the four rules are evaluated
independently and every failing rule contributes its violation (no
short-circuit), the collected list is empty exactly when all four rules
pass, and — identity fields being filled — the submission is turned into a
`validationFailed` outcome exactly when the list is non-empty.  For the
empty selection the code instead aborts the render with a pandas `KeyError`
(line 303), so the failing minimum-count rule is not reported there. -/
theorem claim_C4_all_rules_reported :
    (∀ niveaux_sel parcours_sel : List String,
      erreursRun [] niveaux_sel parcours_sel = .error .keyError) ∧
    ∀ (chosen : List ChosenRow) (niveaux_sel parcours_sel : List String),
      chosen ≠ [] →
        ((msgMin chosen.length ∈ erreurs chosen niveaux_sel parcours_sel) ↔
          chosen.length < MIN_TOTAL) ∧
        (manquantsNiv chosen niveaux_sel ≠ [] →
          msgNiv (manquantsNiv chosen niveaux_sel) ∈ erreurs chosen niveaux_sel parcours_sel) ∧
        (manquantsTrack chosen parcours_sel ≠ [] →
          msgTrack (manquantsTrack chosen parcours_sel) ∈ erreurs chosen niveaux_sel parcours_sel) ∧
        (chosen.any (·.priorite == "") →
          msgPrio ∈ erreurs chosen niveaux_sel parcours_sel) ∧
        (erreurs chosen niveaux_sel parcours_sel = [] ↔
          (¬ chosen.length < MIN_TOTAL ∧ manquantsNiv chosen niveaux_sel = [] ∧
            manquantsTrack chosen parcours_sel = [] ∧
            ¬ chosen.any (·.priorite == ""))) ∧
        (∀ nom prenom email remarque now : String, ∀ file : FsFile,
          nom.trim ≠ "" → prenom.trim ≠ "" →
          (erreurs chosen niveaux_sel parcours_sel ≠ [] ↔
            renderSubmit nom prenom email remarque now chosen niveaux_sel parcours_sel file =
              .ok (file, .validationFailed (erreurs chosen niveaux_sel parcours_sel)))) := by
  refine ⟨fun _ _ => rfl, fun chosen niv par hne => ?_⟩
  have hie : chosen.isEmpty = false := by
    cases chosen with
    | nil => exact absurd rfl hne
    | cons a l => rfl
  refine ⟨mem_erreurs_min chosen niv par,
    fun hm => mem_erreurs_niv chosen niv par hm,
    fun hm => mem_erreurs_track chosen niv par hm,
    fun hp => mem_erreurs_prio chosen niv par hne hp, ?_, ?_⟩
  · rw [erreurs_eq_nil_iff]
    constructor
    · rintro ⟨h1, h2, h3, h4⟩
      exact ⟨h1, h2, h3, fun hp => h4 ⟨hne, hp⟩⟩
    · rintro ⟨h1, h2, h3, h4⟩
      exact ⟨h1, h2, h3, fun hp => h4 hp.2⟩
  · intro nom prenom email remarque now file hn hp
    constructor
    · intro he
      simp [renderSubmit, erreursRun, hie, submitAttempt, hn, hp, he]
    · intro hr
      intro he
      rw [renderSubmit.eq_def, erreursRun.eq_def] at hr
      simp only [hie, Bool.false_eq_true, if_false] at hr
      rw [submitAttempt.eq_def] at hr
      simp only [hn, hp, he, false_or, if_false, ne_eq, not_true_eq_false,
        if_neg (fun hc : (nom.trim = "" ∨ prenom.trim = "") => hc.elim hn hp)] at hr
      rcases hsave : save_soumissions
          (buildLignes nom prenom email remarque now chosen) file with f | e
      all_goals rw [hsave] at hr
      all_goals simp at hr

/-- Witness for C4 at a concrete failing selection. -/
theorem claim_C4_all_rules_reported_witness :
    ((msgMin c4chosen.length ∈ erreurs c4chosen ["L3", "M1"] ["GC", "VOA"]) ↔
      c4chosen.length < MIN_TOTAL) ∧
    (manquantsNiv c4chosen ["L3", "M1"] ≠ [] →
      msgNiv (manquantsNiv c4chosen ["L3", "M1"]) ∈
        erreurs c4chosen ["L3", "M1"] ["GC", "VOA"]) ∧
    (manquantsTrack c4chosen ["GC", "VOA"] ≠ [] →
      msgTrack (manquantsTrack c4chosen ["GC", "VOA"]) ∈
        erreurs c4chosen ["L3", "M1"] ["GC", "VOA"]) ∧
    (c4chosen.any (·.priorite == "") →
      msgPrio ∈ erreurs c4chosen ["L3", "M1"] ["GC", "VOA"]) ∧
    (erreurs c4chosen ["L3", "M1"] ["GC", "VOA"] = [] ↔
      (¬ c4chosen.length < MIN_TOTAL ∧ manquantsNiv c4chosen ["L3", "M1"] = [] ∧
        manquantsTrack c4chosen ["GC", "VOA"] = [] ∧
        ¬ c4chosen.any (·.priorite == ""))) ∧
    (∀ nom prenom email remarque now : String, ∀ file : FsFile,
      nom.trim ≠ "" → prenom.trim ≠ "" →
      (erreurs c4chosen ["L3", "M1"] ["GC", "VOA"] ≠ [] ↔
        renderSubmit nom prenom email remarque now c4chosen ["L3", "M1"] ["GC", "VOA"] file =
          .ok (file, .validationFailed (erreurs c4chosen ["L3", "M1"] ["GC", "VOA"])))) :=
  claim_C4_all_rules_reported.2 c4chosen ["L3", "M1"] ["GC", "VOA"] (by decide)

/-- C7: a submit attempt is atomic — whenever validation collected any
violation, or the submitter's name or surname is blank (or the render
aborted on the empty selection), the store file is left exactly as it was;
conversely the file changes only when the selection is non-empty, both
identity fields are filled and the violation list is empty. -/
theorem claim_C7_failed_submit_leaves_store_unchanged (nom prenom email remarque now : String)
    (selection : List ChosenRow) (niveaux_sel parcours_sel : List String) (file : FsFile) :
    ((selection = [] ∨ nom.trim = "" ∨ prenom.trim = "" ∨
        erreurs selection niveaux_sel parcours_sel ≠ []) →
      fileAfter nom prenom email remarque now selection niveaux_sel parcours_sel file = file) ∧
    (fileAfter nom prenom email remarque now selection niveaux_sel parcours_sel file ≠ file →
      selection ≠ [] ∧ nom.trim ≠ "" ∧ prenom.trim ≠ "" ∧
        erreurs selection niveaux_sel parcours_sel = []) :=
  ⟨fileAfter_eq_of_reject nom prenom email remarque now selection niveaux_sel parcours_sel file,
   fileAfter_changed nom prenom email remarque now selection niveaux_sel parcours_sel file⟩

/-- Witness for C7: a failing validation leaves an absent store absent. -/
theorem claim_C7_failed_submit_leaves_store_unchanged_witness :
    fileAfter "Alice" "Durand" "" "" "d un" c1chosen ["L3"] ["GC"] .absent = .absent :=
  (claim_C7_failed_submit_leaves_store_unchanged "Alice" "Durand" "" "" "d un" c1chosen
    ["L3"] ["GC"] .absent).1 (Or.inr (Or.inr (Or.inr (by decide))))

theorem specRelabelEntry_isNone (g : String → String) (e : SpecEntry) :
    (specRelabelEntry g e).priority.isNone = e.priority.isNone := by
  rcases e with ⟨c, l, t, p⟩
  cases p with
  | none => rfl
  | some sp => cases sp <;> rfl

theorem specRelabel_any_isNone (g : String → String) (entries : List SpecEntry) :
    (specRelabel g entries).any (fun e => e.priority.isNone) =
      entries.any (fun e => e.priority.isNone) := by
  unfold specRelabel
  induction entries with
  | nil => rfl
  | cons e es ih => simp [List.any_cons, ih, specRelabelEntry_isNone]

theorem specViolations_relabel_qualitative (g : String → String) (entries : List SpecEntry)
    (requiredLevels requiredTracks : List String) (minimumTotal : Nat) :
    specViolations (specRelabel g entries) requiredLevels requiredTracks minimumTotal
        .qualitative =
      specViolations entries requiredLevels requiredTracks minimumTotal .qualitative := by
  have hlen : (specRelabel g entries).length = entries.length := List.length_map _ _
  have hlev : (specRelabel g entries).map (·.level) = entries.map (·.level) := by
    unfold specRelabel
    rw [List.map_map]
    exact List.map_congr_left fun e _ => rfl
  have htrk : (specRelabel g entries).map (·.track) = entries.map (·.track) := by
    unfold specRelabel
    rw [List.map_map]
    exact List.map_congr_left fun e _ => rfl
  have hml : specMissingLevels (specRelabel g entries) requiredLevels =
      specMissingLevels entries requiredLevels := by
    unfold specMissingLevels
    rw [hlev]
  have hmt : specMissingTracks (specRelabel g entries) requiredTracks =
      specMissingTracks entries requiredTracks := by
    unfold specMissingTracks
    rw [htrk]
  unfold specViolations
  rw [hlen, hml, hmt, specRelabel_any_isNone]
  simp

theorem relabel_map_level (f : String → String) (chosen : List ChosenRow) :
    (relabel f chosen).map (·.level_code) = chosen.map (·.level_code) := by
  unfold relabel
  rw [List.map_map]
  exact List.map_congr_left fun r _ => rfl

theorem relabel_map_track (f : String → String) (chosen : List ChosenRow) :
    (relabel f chosen).map (·.track_code) = chosen.map (·.track_code) := by
  unfold relabel
  rw [List.map_map]
  exact List.map_congr_left fun r _ => rfl

theorem relabel_any_empty (f : String → String) (hf : ∀ s, f s = "" ↔ s = "")
    (chosen : List ChosenRow) :
    (relabel f chosen).any (·.priorite == "") = chosen.any (·.priorite == "") := by
  unfold relabel
  induction chosen with
  | nil => rfl
  | cons r rs ih =>
      have hr : (f r.priorite == "") = (r.priorite == "") := by
        by_cases h : r.priorite = ""
        · rw [h]
          simp [(hf "").mpr rfl]
        · have h1 : f r.priorite ≠ "" := fun hc => h ((hf r.priorite).mp hc)
          simp [h, h1]
      simp only [List.map_cons, List.any_cons, ih, hr]

theorem erreurs_relabel (f : String → String) (hf : ∀ s, f s = "" ↔ s = "")
    (chosen : List ChosenRow) (niveaux_sel parcours_sel : List String) :
    erreurs (relabel f chosen) niveaux_sel parcours_sel =
      erreurs chosen niveaux_sel parcours_sel := by
  have hlen : (relabel f chosen).length = chosen.length := List.length_map _ _
  have hniv : manquantsNiv (relabel f chosen) niveaux_sel =
      manquantsNiv chosen niveaux_sel := by
    unfold manquantsNiv
    rw [relabel_map_level]
  have htrk : manquantsTrack (relabel f chosen) parcours_sel =
      manquantsTrack chosen parcours_sel := by
    unfold manquantsTrack
    rw [relabel_map_track]
  have hne : (relabel f chosen ≠ []) = (chosen ≠ []) := by
    simp [relabel]
  unfold erreurs
  simp only [hlen, hniv, htrk, hne, relabel_any_empty f hf chosen]

/-- C3: priority-uniqueness behavior per encoding.  Ordinal mode (spec-
modelled — this revision only has qualitative labels): duplicated numeric
priority values always put the uniqueness violation in the result and make
`ok` false.  Qualitative mode: label values never influence the outcome
beyond being empty or not — rewriting labels through any emptiness-
preserving map leaves the source's `erreurs` unchanged (so duplicated labels
can never raise a violation), and in the spec model every relabelling (in
particular one creating duplicates) leaves the qualitative violation list
unchanged. -/
theorem claim_C3_priority_uniqueness :
    (∀ (entries : List SpecEntry) (requiredLevels requiredTracks : List String)
        (minimumTotal : Nat),
      ¬ (specRanks entries).Nodup →
        specUniqMsg ∈
          specViolations entries requiredLevels requiredTracks minimumTotal .ordinal ∧
        ¬ specOk entries requiredLevels requiredTracks minimumTotal .ordinal) ∧
    (∀ (f : String → String) (chosen : List ChosenRow)
        (niveaux_sel parcours_sel : List String),
      (∀ s, f s = "" ↔ s = "") →
        erreurs (relabel f chosen) niveaux_sel parcours_sel =
          erreurs chosen niveaux_sel parcours_sel) ∧
    (∀ (g : String → String) (entries : List SpecEntry)
        (requiredLevels requiredTracks : List String) (minimumTotal : Nat),
      specViolations (specRelabel g entries) requiredLevels requiredTracks minimumTotal
          .qualitative =
        specViolations entries requiredLevels requiredTracks minimumTotal .qualitative) := by
  refine ⟨fun entries rl rt mt h => ?_,
    fun f chosen niv par hf => erreurs_relabel f hf chosen niv par,
    fun g entries rl rt mt => specViolations_relabel_qualitative g entries rl rt mt⟩
  have hm : specUniqMsg ∈
      specViolations entries rl rt mt .ordinal := by
    unfold specViolations
    rw [if_pos (show PriorityMode.ordinal = PriorityMode.ordinal ∧
      ¬ (specRanks entries).Nodup from ⟨rfl, h⟩)]
    exact List.mem_append_right _ (List.mem_singleton_self _)
  refine ⟨hm, fun he => ?_⟩
  unfold specOk at he
  rw [he] at hm
  exact List.not_mem_nil _ hm

/-- Witness for C3 at concrete entries and relabellings. -/
theorem claim_C3_priority_uniqueness_witness :
    (specUniqMsg ∈ specViolations c3entries ["L3"] [] 1 .ordinal ∧
      ¬ specOk c3entries ["L3"] [] 1 .ordinal) ∧
    (erreurs (relabel (fun s => if s = "" then "" else "🧩 Je prends le défi") c3chosen)
        ["L3"] ["GC"] =
      erreurs c3chosen ["L3"] ["GC"]) ∧
    (specViolations (specRelabel (fun _ => "🧩 Je prends le défi") c3entries) ["L3"] [] 1
        .qualitative =
      specViolations c3entries ["L3"] [] 1 .qualitative) :=
  ⟨claim_C3_priority_uniqueness.1 c3entries ["L3"] [] 1 (by decide),
   claim_C3_priority_uniqueness.2.1 (fun s => if s = "" then "" else "🧩 Je prends le défi")
     c3chosen ["L3"] ["GC"] (fun s => by by_cases h : s = "" <;> simp [h]),
   claim_C3_priority_uniqueness.2.2 (fun _ => "🧩 Je prends le défi") c3entries ["L3"] [] 1⟩

/-- Counterexample to C8 as stated: with equal submission times, the admin
display sort places the "available if needed" row (label enumeration rank 3)
before the "strongly desired" row (rank 0), because `sort_values` compares
the raw label strings lexicographically and the gear code point is the
smallest — the adjacent displayed pair violates the spec's enumeration
order. -/
theorem claim_C8_counterexample :
    sortAdmin [c8r1, c8r2] = [c8r2, c8r1] ∧
    cat_order (vkey c8r2.priorite) = 3 ∧ cat_order (vkey c8r1.priorite) = 0 ∧
    ¬ specDisplayLe c8r2 c8r1 ∧ specDisplayLe c8r1 c8r2 := by
  have hdeq : vkey c8r1.date_soumission = vkey c8r2.date_soumission := rfl
  have hd21 : ¬ (vkey c8r2.date_soumission < vkey c8r1.date_soumission) := by
    rw [String.lt_iff_toList_lt]
    decide
  have hd12 : ¬ (vkey c8r1.date_soumission < vkey c8r2.date_soumission) := by
    rw [String.lt_iff_toList_lt]
    decide
  have hple : ¬ (vkey c8r1.priorite ≤ vkey c8r2.priorite) := by
    rw [String.le_iff_toList_le]
    decide
  have hnot : ¬ adminLe c8r1 c8r2 := by
    rintro (h | ⟨-, h⟩)
    · exact hd21 h
    · exact hple h
  refine ⟨?_, by decide, by decide, ?_, Or.inr ⟨hdeq, by decide⟩⟩
  · simp [sortAdmin, List.insertionSort, List.orderedInsert, hnot]
  · rintro (h | ⟨-, h⟩)
    · exact hd12 h
    · exact absurd h (by decide)

/-- C8 amended: the admin display ordering sorts the stored rows by the key
(`submittedAt` descending, priority ascending) where the priority component
compares the raw label strings lexicographically by code point — not by the
§3 label enumeration (see the counterexample) — and the result is a
permutation of the displayed rows; the fixed enumeration order is used only
for the per-submission ordering of the rows written at save time (lines
324-326). -/
theorem claim_C8_display_sort_is_lexicographic (rows : List LoadedRow)
    (chosen : List ChosenRow) :
    (sortAdmin rows).Sorted adminLe ∧ (sortAdmin rows).Perm rows ∧
    (sortChosen chosen).Sorted catLe ∧ (sortChosen chosen).Perm chosen :=
  ⟨List.sorted_insertionSort adminLe rows, List.perm_insertionSort adminLe rows,
   List.sorted_insertionSort catLe chosen, List.perm_insertionSort catLe chosen⟩

/-- C10: after one render cycle of the selection block, the priority map in
session state is keyed by exactly the currently selected codes, every
selected code belongs to the currently filtered catalog, and every surviving
`prio_...` widget key belongs to a currently selected code (stale ones were
deleted). -/
theorem claim_C10_session_state_invariant (workCodes : List String)
    (choose : String → Bool) (prioPick : String → String → String) (s0 : SessionState) :
    ((renderCycle workCodes choose prioPick s0).priorites.map Prod.fst =
      (renderCycle workCodes choose prioPick s0).selection_codes) ∧
    (∀ c ∈ (renderCycle workCodes choose prioPick s0).selection_codes, c ∈ workCodes) ∧
    (∀ k ∈ (renderCycle workCodes choose prioPick s0).widget_keys,
      k.startsWith "prio_" →
        ∃ c ∈ (renderCycle workCodes choose prioPick s0).selection_codes,
          k = "prio_" ++ c) := by
  unfold renderCycle
  refine ⟨?_, ?_, ?_⟩
  · simp only [List.map_map]
    exact (List.map_congr_left fun c _ => rfl).trans (List.map_id _)
  · intro c hc
    exact List.mem_of_mem_filter hc
  · intro k hk hstart
    simp only [List.mem_append] at hk
    have hact : k ∈ (workCodes.filter choose).map (fun c => "prio_" ++ c) := by
      rcases hk with h | h
      · have h2 := (List.mem_filter.mp h).2
        simp only [hstart, Bool.not_true, Bool.false_or] at h2
        simpa using h2
      · exact (List.mem_filter.mp h).1
    rcases List.mem_map.mp hact with ⟨c, hc, hck⟩
    exact ⟨c, hc, hck.symm⟩
